import Mathlib

/-! Shallow embedding of `src/kumru.py`: a FastAPI router that relays a
question, or the per-page text of an uploaded PDF, to an Ollama
text-generation endpoint (`POST {OLLAMA_URL}/api/generate`) and assembles
the responses.

Modelling choices, each taken from the source:

* The outbound HTTP call (`client.post` followed by `response.raise_for_status()`
  and `response.json()`) is abstracted as a `CallOutcome`: either a parsed JSON
  success whose optional `response` field is carried as `Option String`, or one
  of the exception classes the handlers distinguish.  In the httpx library,
  timeout exceptions (`httpx.TimeoutException`, raised when the 120 s budget
  expires) are subclasses of `httpx.TransportError`, itself a subclass of
  `httpx.RequestError`; the `CallOutcome.requestError` constructor therefore
  carries a `timeout` flag recording whether the request error was a timeout,
  and `except httpx.RequestError` catches both.  Non-2xx statuses raise
  `httpx.HTTPStatusError` (not a `RequestError`), and a malformed JSON body
  raises a JSON decode error; both fall to `except Exception`.

* Handlers are deterministic given an oracle `o : Nat → CallOutcome` giving
  the outcome of the k-th outbound call issued by the request (0-indexed).
  Each handler returns its HTTP-level result together with the ordered list
  of payloads it actually sent, so that call counts and call bodies are
  statable.

* `fitz.open(stream=pdf_bytes, filetype="pdf")` together with per-page
  `page.get_text("text")` is abstracted as a `DecodeResult`: either the
  ordered list of extracted page texts, or a decode failure carrying the
  exception message.

* Python `str.strip()` is modelled by `pyStrip`, which drops whitespace
  characters from both ends; Python truthiness of a string (`if not text:`)
  is emptiness.  Message strings carried by exceptions (`str(e)`, `repr(e)`)
  are carried abstractly as the `String` stored in the outcome.
-/

namespace Kumru

/-- Model name `MODEL_NAME`, as resolved from the environment default in `kumru.py`. -/
def MODEL_NAME : String := "receptim/kumru-2b"

/-- JSON body of one outbound generate call: `{"model": …, "prompt": …, "stream": …}`. -/
structure Payload where
  model : String
  prompt : String
  stream : Bool
deriving DecidableEq

/-- Outcome of one outbound call, after `raise_for_status()` and `.json()`:
`success r` is a 2xx response whose parsed JSON has `r` as its optional
`response` field; `requestError` is `httpx.RequestError` (connection failures,
and — `timeout = true` — expiry of the 120 s budget); `statusError` is
`httpx.HTTPStatusError` from `raise_for_status()` on a non-2xx status;
`malformed` is a JSON decode failure in `response.json()`. -/
inductive CallOutcome where
  | success (responseField : Option String)
  | requestError (timeout : Bool) (msg : String)
  | statusError (msg : String)
  | malformed (msg : String)
deriving DecidableEq

/-- Whether the outbound call completed without raising. -/
def CallOutcome.isSuccess : CallOutcome → Bool
  | .success _ => true
  | _ => false

/-- The message carried by a failing outcome (`str(model_err)` in the source). -/
def CallOutcome.errMsg : CallOutcome → String
  | .success _ => ""
  | .requestError _ m => m
  | .statusError m => m
  | .malformed m => m

/-- An oracle in which every call succeeds, the k-th with optional
`response` field `f k`. -/
def okOracle (f : Nat → Option String) : Nat → CallOutcome :=
  fun k => .success (f k)

/-- Result of one handler invocation: a 2xx response carrying the
`kumru_response` body, or an `HTTPException(status_code, detail)`. -/
inductive HandlerResult where
  | ok (kumru_response : String)
  | httpError (status : Nat) (detail : String)
deriving DecidableEq

/-- Result of `fitz.open` + per-page `get_text("text")`: the ordered list of
raw extracted page texts, or a decode failure with its message. -/
inductive DecodeResult where
  | ok (pages : List String)
  | fail (msg : String)
deriving DecidableEq

/-- Python `str.strip()`: drop whitespace from both ends. -/
def pyStrip (s : String) : String :=
  ⟨((s.data.dropWhile Char.isWhitespace).reverse.dropWhile Char.isWhitespace).reverse⟩

/-- The page marker fragment appended before each page result:
`f"\n\n--- Sayfa {page_num} ---\n"`. -/
def sayfaMarker (n : Nat) : String :=
  "\n\n--- Sayfa " ++ toString n ++ " ---\n"

/-- Handler of `GET /kumru/health`: `kumru_health_check`.  Always returns
status 200 with body `{"status": "Kumru router is healthy"}`; the JSON body
is modelled by its single `status` field. -/
def kumru_health_check (_ : Unit) : Nat × String :=
  (200, "Kumru router is healthy")

/-- Handler of `POST /llm/kumru/ask`: `ask_kumru`.  Builds the payload from the
question, issues one call, and maps the outcome: success returns
`data.get("response", "")`; `httpx.RequestError` maps to 503; any other
exception maps to 500. -/
def ask_kumru (o : Nat → CallOutcome) (question : String) :
    HandlerResult × List Payload :=
  let payload : Payload := ⟨MODEL_NAME, question, false⟩
  match o 0 with
  | .success r => (.ok (r.getD ""), [payload])
  | .requestError _ m =>
      (.httpError 503 ("Ollama service is unavailable: " ++ m), [payload])
  | .statusError m =>
      (.httpError 500 ("An unexpected error occurred: " ++ m), [payload])
  | .malformed m =>
      (.httpError 500 ("An unexpected error occurred: " ++ m), [payload])

/-- The prompt built by `send_docs_kumru` for page `n` with stripped text
`text`. -/
def docsPrompt (n : Nat) (text : String) : String :=
  "Sayfa " ++ toString n ++ " içeriği:\n\n" ++ text ++
    "\n\nBu sayfadaki metni çıkar. Kendin hiçbir şey ekleme. Metni olduğu gibi ver. Sakın özetleme sadece tüm metni olduğu gibi çıkar:"

/-- The page loop of `send_docs_kumru`: `pageNum` is the 1-indexed number of
the next page, `callIdx` the index of the next outbound call, `acc` the
`full_response` accumulator, `trace` the payloads issued so far.  A page
whose stripped text is empty is skipped (`continue`); otherwise one call is
issued, and any raised outcome escapes the loop to the handler-level
`except Exception` clause. -/
def sendDocsLoop (o : Nat → CallOutcome) :
    List String → Nat → Nat → String → List Payload →
    HandlerResult × List Payload
  | [], _, _, acc, trace => (.ok acc, trace)
  | p :: rest, pageNum, callIdx, acc, trace =>
    let text := pyStrip p
    if text == "" then
      sendDocsLoop o rest (pageNum + 1) callIdx acc trace
    else
      let payload : Payload := ⟨MODEL_NAME, docsPrompt pageNum text, false⟩
      match o callIdx with
      | .success r =>
          sendDocsLoop o rest (pageNum + 1) (callIdx + 1)
            (acc ++ sayfaMarker pageNum ++ r.getD "") (trace ++ [payload])
      | e =>
          (.httpError 500 ("PDF işleme hatası: " ++ e.errMsg), trace ++ [payload])

/-- Handler of `POST /llm/kumru/send_documents`: `send_docs_kumru`.  A decode
failure, or any outcome raised inside the page loop, reaches
`except Exception` and becomes HTTP 500 with detail
`f"PDF işleme hatası: {str(e)}"`. -/
def send_docs_kumru (o : Nat → CallOutcome) (d : DecodeResult) :
    HandlerResult × List Payload :=
  match d with
  | .fail m => (.httpError 500 ("PDF işleme hatası: " ++ m), [])
  | .ok pages => sendDocsLoop o pages 1 0 "" []

/-- The prompt built by `send_pdf_kumru` for a page whose stripped text is
non-empty. -/
def pdfPromptText (text : String) : String :=
  "Bu sayfadaki metni çıkar:\n\n" ++ text

/-- The prompt built by `send_pdf_kumru` for a page whose stripped text is
empty (image-based extraction attempt). -/
def pdfPromptImage : String :=
  "Bu sayfadaki metni çıkar. Sayfa görüntü içeriyorsa görüntüden metin çıkar. " ++
    "Sakın özetleme sadece bu sayfadan metni olduğu gibi çıkar. " ++
    "Eğer sayfa bir görüntü içeriyorsa veya metin okunamıyorsa, "

/-- The text recorded for one page of `send_pdf_kumru` given the outcome of
its call: the stripped `response` field on success, the
`f"(Sayfa {page_num} için model hatası: {model_err})"` placeholder when the
per-page `except Exception` clause catches a failure. -/
def pdfPageText (o : Nat → CallOutcome) (callIdx pageNum : Nat) : String :=
  match o callIdx with
  | .success r => pyStrip (r.getD "")
  | e => "(Sayfa " ++ toString pageNum ++ " için model hatası: " ++ e.errMsg ++ ")"

/-- The page loop of `send_pdf_kumru`: every page issues exactly one call;
the per-page try/except turns a failing call into a placeholder, so the loop
itself never raises. -/
def sendPdfLoop (o : Nat → CallOutcome) :
    List String → Nat → Nat → String → List Payload → String × List Payload
  | [], _, _, acc, trace => (acc, trace)
  | p :: rest, pageNum, callIdx, acc, trace =>
    let text := pyStrip p
    let prompt := if text == "" then pdfPromptImage else pdfPromptText text
    let payload : Payload := ⟨MODEL_NAME, prompt, false⟩
    sendPdfLoop o rest (pageNum + 1) (callIdx + 1)
      (acc ++ sayfaMarker pageNum ++ pdfPageText o callIdx pageNum)
      (trace ++ [payload])

/-- Handler of `POST /llm/kumru/send_pdf`: `send_pdf_kumru`.  Only a decode
failure (or another exception outside the per-page try/except) reaches the
handler-level `except Exception` clause. -/
def send_pdf_kumru (o : Nat → CallOutcome) (d : DecodeResult) :
    HandlerResult × List Payload :=
  match d with
  | .fail m => (.httpError 500 ("PDF işleme hatası: " ++ m), [])
  | .ok pages =>
    let r := sendPdfLoop o pages 1 0 "" []
    (.ok r.1, r.2)

/-- Boolean substring test: `pat` occurs contiguously inside `s`. -/
def strContainsSub (s pat : String) : Bool :=
  s.data.tails.any (fun t => pat.data.isPrefixOf t)

/-- The aggregation shape of both PDF endpoints: each segment `(n, t)`
contributes the page marker for `n` followed by the text `t`. -/
def aggregateSegments : List (Nat × String) → String
  | [] => ""
  | s :: rest => sayfaMarker s.1 ++ s.2 ++ aggregateSegments rest

/-- The segments produced by the `send_docs_kumru` loop under an all-success
oracle `okOracle f`: one segment per page with non-empty stripped text,
numbered by 1-indexed page position, carrying the `response` field of the
corresponding call. -/
def docsSegs (f : Nat → Option String) :
    List String → Nat → Nat → List (Nat × String)
  | [], _, _ => []
  | p :: rest, pageNum, callIdx =>
    if pyStrip p == "" then docsSegs f rest (pageNum + 1) callIdx
    else (pageNum, (f callIdx).getD "") :: docsSegs f rest (pageNum + 1) (callIdx + 1)

/-- The segments produced by the `send_pdf_kumru` loop under an arbitrary
oracle: exactly one segment per page, in page order. -/
def pdfSegs (o : Nat → CallOutcome) :
    List String → Nat → Nat → List (Nat × String)
  | [], _, _ => []
  | _ :: rest, pageNum, callIdx =>
    (pageNum, pdfPageText o callIdx pageNum) :: pdfSegs o rest (pageNum + 1) (callIdx + 1)

set_option maxRecDepth 10000


theorem sendDocsLoop_ok_length (f : Nat → Option String) (pages : List String) :
    ∀ (pageNum callIdx : Nat) (acc : String) (trace : List Payload),
      ((sendDocsLoop (okOracle f) pages pageNum callIdx acc trace).2).length
        = trace.length + (pages.filter (fun t => !(pyStrip t == ""))).length := by
  induction pages with
  | nil => intro pageNum callIdx acc trace; simp [sendDocsLoop]
  | cons p rest ih =>
    intro pageNum callIdx acc trace
    cases h : pyStrip p == "" with
    | true => simp [sendDocsLoop, h, List.filter_cons, ih]
    | false =>
      simp [sendDocsLoop, h, List.filter_cons, okOracle, ih]
      omega

theorem sendDocsLoop_ok_fst (f : Nat → Option String) (pages : List String) :
    ∀ (pageNum callIdx : Nat) (acc : String) (trace : List Payload),
      (sendDocsLoop (okOracle f) pages pageNum callIdx acc trace).1
        = .ok (acc ++ aggregateSegments (docsSegs f pages pageNum callIdx)) := by
  induction pages with
  | nil =>
    intro pageNum callIdx acc trace
    simp [sendDocsLoop, docsSegs, aggregateSegments, String.append_empty]
  | cons p rest ih =>
    intro pageNum callIdx acc trace
    cases h : pyStrip p == "" with
    | true => simp [sendDocsLoop, docsSegs, h, ih]
    | false =>
      simp [sendDocsLoop, docsSegs, aggregateSegments, h, okOracle, ih,
        String.append_assoc]

theorem sendDocsLoop_fail (o : Nat → CallOutcome) (pages : List String) :
    ∀ (pageNum callIdx : Nat) (acc : String) (trace : List Payload),
      (∃ k, callIdx ≤ k ∧
          k < callIdx + (pages.filter (fun t => !(pyStrip t == ""))).length ∧
          (o k).isSuccess = false) →
      ∃ m, (sendDocsLoop o pages pageNum callIdx acc trace).1
          = .httpError 500 ("PDF işleme hatası: " ++ m) := by
  induction pages with
  | nil =>
    intro pageNum callIdx acc trace h
    obtain ⟨k, hk1, hk2, _⟩ := h
    simp at hk2
    omega
  | cons p rest ih =>
    intro pageNum callIdx acc trace h
    cases hp : pyStrip p == "" with
    | true =>
      rw [show sendDocsLoop o (p :: rest) pageNum callIdx acc trace
            = sendDocsLoop o rest (pageNum + 1) callIdx acc trace from by
          simp [sendDocsLoop, hp]]
      exact ih _ _ _ _ (by simpa [List.filter_cons, hp] using h)
    | false =>
      obtain ⟨k, hk1, hk2, hk3⟩ := h
      have hflen : ((p :: rest).filter (fun t => !(pyStrip t == ""))).length
          = (rest.filter (fun t => !(pyStrip t == ""))).length + 1 := by
        simp [List.filter_cons, hp]
      cases ho : o callIdx with
      | success r =>
        have hkne : k ≠ callIdx := by
          intro he; rw [he, ho] at hk3; simp [CallOutcome.isSuccess] at hk3
        rw [show sendDocsLoop o (p :: rest) pageNum callIdx acc trace
              = sendDocsLoop o rest (pageNum + 1) (callIdx + 1)
                  (acc ++ sayfaMarker pageNum ++ r.getD "")
                  (trace ++ [⟨MODEL_NAME, docsPrompt pageNum (pyStrip p), false⟩]) from by
            simp [sendDocsLoop, hp, ho]]
        exact ih _ _ _ _ ⟨k, by omega, by omega, hk3⟩
      | requestError t m => exact ⟨m, by simp [sendDocsLoop, hp, ho, CallOutcome.errMsg]⟩
      | statusError m => exact ⟨m, by simp [sendDocsLoop, hp, ho, CallOutcome.errMsg]⟩
      | malformed m => exact ⟨m, by simp [sendDocsLoop, hp, ho, CallOutcome.errMsg]⟩

theorem sendPdfLoop_length (o : Nat → CallOutcome) (pages : List String) :
    ∀ (pageNum callIdx : Nat) (acc : String) (trace : List Payload),
      ((sendPdfLoop o pages pageNum callIdx acc trace).2).length
        = trace.length + pages.length := by
  induction pages with
  | nil => intro pageNum callIdx acc trace; simp [sendPdfLoop]
  | cons p rest ih =>
    intro pageNum callIdx acc trace
    simp [sendPdfLoop, ih]
    omega

theorem sendPdfLoop_fst (o : Nat → CallOutcome) (pages : List String) :
    ∀ (pageNum callIdx : Nat) (acc : String) (trace : List Payload),
      (sendPdfLoop o pages pageNum callIdx acc trace).1
        = acc ++ aggregateSegments (pdfSegs o pages pageNum callIdx) := by
  induction pages with
  | nil =>
    intro pageNum callIdx acc trace
    simp [sendPdfLoop, pdfSegs, aggregateSegments, String.append_empty]
  | cons p rest ih =>
    intro pageNum callIdx acc trace
    simp [sendPdfLoop, pdfSegs, aggregateSegments, ih, String.append_assoc]

theorem pdfSegs_map_fst (o : Nat → CallOutcome) (pages : List String) :
    ∀ (pageNum callIdx : Nat),
      (pdfSegs o pages pageNum callIdx).map Prod.fst
        = List.range' pageNum pages.length := by
  induction pages with
  | nil => intro pageNum callIdx; simp [pdfSegs]
  | cons p rest ih => intro pageNum callIdx; simp [pdfSegs, List.range', ih]

theorem sendDocsLoop_ws (o : Nat → CallOutcome) (t : String) (ht : pyStrip t = "")
    (post : List String) (pre : List String) :
    ∀ (pageNum callIdx : Nat) (acc : String) (trace : List Payload),
      sendDocsLoop o (pre ++ t :: post) pageNum callIdx acc trace
        = sendDocsLoop o (pre ++ "" :: post) pageNum callIdx acc trace := by
  have h0 : pyStrip "" = "" := by decide
  induction pre with
  | nil =>
    intro pageNum callIdx acc trace
    simp [sendDocsLoop, ht, h0]
  | cons p pre ih =>
    intro pageNum callIdx acc trace
    cases hp : pyStrip p == "" with
    | true => simp [sendDocsLoop, hp, ih]
    | false =>
      cases ho : o callIdx with
      | success r => simp [sendDocsLoop, hp, ho, ih]
      | requestError tb m => simp [sendDocsLoop, hp, ho]
      | statusError m => simp [sendDocsLoop, hp, ho]
      | malformed m => simp [sendDocsLoop, hp, ho]

theorem sendPdfLoop_ws (o : Nat → CallOutcome) (t : String) (ht : pyStrip t = "")
    (post : List String) (pre : List String) :
    ∀ (pageNum callIdx : Nat) (acc : String) (trace : List Payload),
      sendPdfLoop o (pre ++ t :: post) pageNum callIdx acc trace
        = sendPdfLoop o (pre ++ "" :: post) pageNum callIdx acc trace := by
  have h0 : pyStrip "" = "" := by decide
  induction pre with
  | nil =>
    intro pageNum callIdx acc trace
    simp [sendPdfLoop, ht, h0]
  | cons p pre ih =>
    intro pageNum callIdx acc trace
    simp [sendPdfLoop, ih]

/-- C1: for `/llm/kumru/send_documents`, pages whose extracted (stripped) text is
empty are skipped — no inference call is issued for them — while each non-empty
page causes exactly one call appended under that page marker; on the PDF with
pages `["", "Hello", "", "World"]` exactly 2 calls are issued and the output
carries the markers of pages 2 and 4 in that order and no markers for pages
1 and 3. -/
theorem send_documents_skips_empty_pages :
    (∀ (f : Nat → Option String) (pages : List String),
      ((send_docs_kumru (okOracle f) (.ok pages)).2).length
        = (pages.filter (fun t => !(pyStrip t == ""))).length)
    ∧ (send_docs_kumru (okOracle (fun _ => some "X")) (.ok ["", "Hello", "", "World"])) =
        (.ok (sayfaMarker 2 ++ "X" ++ sayfaMarker 4 ++ "X"),
         [⟨MODEL_NAME, docsPrompt 2 "Hello", false⟩, ⟨MODEL_NAME, docsPrompt 4 "World", false⟩])
    ∧ strContainsSub (sayfaMarker 2 ++ "X" ++ sayfaMarker 4 ++ "X") "--- Sayfa 2 ---" = true
    ∧ strContainsSub (sayfaMarker 2 ++ "X" ++ sayfaMarker 4 ++ "X") "--- Sayfa 4 ---" = true
    ∧ strContainsSub (sayfaMarker 2 ++ "X" ++ sayfaMarker 4 ++ "X") "--- Sayfa 1 ---" = false
    ∧ strContainsSub (sayfaMarker 2 ++ "X" ++ sayfaMarker 4 ++ "X") "--- Sayfa 3 ---" = false := by
  refine ⟨fun f pages => ?_, by decide, by decide, by decide, by decide, by decide⟩
  simpa [send_docs_kumru] using sendDocsLoop_ok_length f pages 1 0 "" []

/-- C2: for `/llm/kumru/send_pdf`, exactly one inference call is issued per page
(none skipped, empty pages included), and the aggregated result is one
marker-prefixed segment per page with page numbers in strictly ascending order;
a 4-page PDF yields exactly 4 calls and 4 markers. -/
theorem send_pdf_one_call_per_page :
    (∀ (o : Nat → CallOutcome) (pages : List String),
      ((send_pdf_kumru o (.ok pages)).2).length = pages.length
      ∧ (send_pdf_kumru o (.ok pages)).1 = .ok (aggregateSegments (pdfSegs o pages 1 0))
      ∧ (pdfSegs o pages 1 0).map Prod.fst = List.range' 1 pages.length)
    ∧ ((send_pdf_kumru (fun _ => .success (some "X")) (.ok ["", "Hello", "", "World"])).2).length = 4
    ∧ (send_pdf_kumru (fun _ => .success (some "X")) (.ok ["", "Hello", "", "World"])).1
        = .ok (sayfaMarker 1 ++ "X" ++ sayfaMarker 2 ++ "X" ++ sayfaMarker 3 ++ "X" ++ sayfaMarker 4 ++ "X") := by
  refine ⟨fun o pages => ⟨?_, ?_, pdfSegs_map_fst o pages 1 0⟩, by decide, by decide⟩
  · simpa [send_pdf_kumru] using sendPdfLoop_length o pages 1 0 "" []
  · simp [send_pdf_kumru, sendPdfLoop_fst o pages 1 0 "" [], String.empty_append]

/-- C3 (counterexample): the aggregated output of `send_docs_kumru` for a
single non-empty page does not contain the literal `--- Page 1 ---`; the
marker actually emitted is `--- Sayfa 1 ---`. -/
theorem page_marker_literal_counterexample :
    (send_docs_kumru (okOracle (fun _ => some "X")) (.ok ["Hello"])).1
        = .ok ("\n\n--- Sayfa 1 ---\nX")
    ∧ strContainsSub "\n\n--- Sayfa 1 ---\nX" "--- Page 1 ---" = false
    ∧ strContainsSub "\n\n--- Sayfa 1 ---\nX" "--- Sayfa 1 ---" = true := by
  refine ⟨by decide, by decide, by decide⟩

/-- C3 (amended): in every aggregated result of `/llm/kumru/send_documents`
and `/llm/kumru/send_pdf`, each per-page output is prefixed with the literal
page marker `--- Sayfa N ---` (surrounded by the newlines of
`"\n\n--- Sayfa N ---\n"`), where N is the 1-indexed page number. -/
theorem page_marker_sayfa_prefix (f : Nat → Option String) (o : Nat → CallOutcome)
    (pages : List String) :
    (send_docs_kumru (okOracle f) (.ok pages)).1
        = .ok (aggregateSegments (docsSegs f pages 1 0))
    ∧ (send_pdf_kumru o (.ok pages)).1 = .ok (aggregateSegments (pdfSegs o pages 1 0)) := by
  constructor
  · simpa [send_docs_kumru] using sendDocsLoop_ok_fst f pages 1 0 "" []
  · simp [send_pdf_kumru, sendPdfLoop_fst o pages 1 0 "" [], String.empty_append]

/-- C4: in `/llm/kumru/send_pdf` a failing per-page inference call does not
abort the request: whatever the oracle does, the handler returns a 2xx result;
concretely, when the 3rd of 4 calls fails, the output still has all 4 markers,
with page 3 replaced by the placeholder naming the page number and the failure
reason, and 4 calls are still issued. -/
theorem send_pdf_per_page_failure_isolation :
    (∀ (o : Nat → CallOutcome) (pages : List String),
      ∃ s, (send_pdf_kumru o (.ok pages)).1 = .ok s)
    ∧ (send_pdf_kumru (fun k => if k == 2 then .statusError "boom" else .success (some "ok"))
        (.ok ["A", "B", "C", "D"])).1 =
      .ok (sayfaMarker 1 ++ "ok" ++ sayfaMarker 2 ++ "ok" ++
           sayfaMarker 3 ++ "(Sayfa 3 için model hatası: boom)" ++ sayfaMarker 4 ++ "ok")
    ∧ ((send_pdf_kumru (fun k => if k == 2 then .statusError "boom" else .success (some "ok"))
        (.ok ["A", "B", "C", "D"])).2).length = 4 := by
  exact ⟨fun o pages => ⟨(sendPdfLoop o pages 1 0 "" []).1, rfl⟩, by decide, by decide⟩

/-- C5: in `/llm/kumru/send_documents`, if any of the per-page inference calls
that the request issues fails, the whole request returns HTTP 500 with the
`PDF işleme hatası` detail and no partial `kumru_response` is returned. -/
theorem send_documents_aborts_on_call_failure
    (o : Nat → CallOutcome) (pages : List String)
    (h : ∃ k, k < (pages.filter (fun t => !(pyStrip t == ""))).length ∧
        (o k).isSuccess = false) :
    (∃ m, (send_docs_kumru o (.ok pages)).1
        = .httpError 500 ("PDF işleme hatası: " ++ m))
    ∧ ∀ s, (send_docs_kumru o (.ok pages)).1 ≠ .ok s := by
  obtain ⟨k, hk1, hk2⟩ := h
  have hmain := sendDocsLoop_fail o pages 1 0 "" [] ⟨k, Nat.zero_le k, by simpa using hk1, hk2⟩
  refine ⟨by simpa [send_docs_kumru] using hmain, ?_⟩
  intro s hs
  obtain ⟨m, hm⟩ := hmain
  rw [show (send_docs_kumru o (.ok pages)).1 = (sendDocsLoop o pages 1 0 "" []).1 from rfl, hm] at hs
  cases hs

theorem send_documents_aborts_on_call_failure_witness :
    (∃ m, (send_docs_kumru (fun _ => .statusError "boom") (.ok ["Hello"])).1
        = .httpError 500 ("PDF işleme hatası: " ++ m))
    ∧ ∀ s, (send_docs_kumru (fun _ => .statusError "boom") (.ok ["Hello"])).1 ≠ .ok s :=
  send_documents_aborts_on_call_failure (fun _ => .statusError "boom") ["Hello"]
    ⟨0, by decide, by decide⟩

/-- C6 (counterexample): a timeout on the outbound call of `/llm/kumru/ask` is
an `httpx.RequestError`, so the handler returns HTTP 503, not the HTTP 500 the
claim assigns to timeouts. -/
theorem ask_timeout_counterexample :
    (ask_kumru (fun _ => .requestError true "ReadTimeout") "q").1
      = .httpError 503 ("Ollama service is unavailable: ReadTimeout") := by decide

/-- C6 (amended): for `/llm/kumru/ask`, every `httpx.RequestError` — network or
connection failure, and also timeout, since httpx timeout exceptions are
request errors — yields HTTP 503, while a non-2xx upstream status or a
malformed response body yields HTTP 500 carrying the failure description. -/
theorem ask_error_status_mapping (q m : String) (t : Bool) :
    (ask_kumru (fun _ => .requestError t m) q).1
        = .httpError 503 ("Ollama service is unavailable: " ++ m)
    ∧ (ask_kumru (fun _ => .statusError m) q).1
        = .httpError 500 ("An unexpected error occurred: " ++ m)
    ∧ (ask_kumru (fun _ => .malformed m) q).1
        = .httpError 500 ("An unexpected error occurred: " ++ m) :=
  ⟨rfl, rfl, rfl⟩

/-- C7: `/llm/kumru/ask` issues exactly one outbound call, whose payload has
the configured model, the question as prompt and `stream = false`; on success
it returns the upstream `response` field verbatim, defaulting to the empty
string when the field is absent. -/
theorem ask_single_call_verbatim (o : Nat → CallOutcome) (q : String)
    (r : Option String) :
    (ask_kumru o q).2 = [⟨MODEL_NAME, q, false⟩]
    ∧ (ask_kumru (fun _ => .success r) q).1 = .ok (r.getD "")
    ∧ (ask_kumru (fun _ => .success none) q).1 = .ok "" := by
  refine ⟨?_, rfl, rfl⟩
  cases ho : o 0 <;> simp [ask_kumru, ho]

/-- C8: a PDF decode failure makes both `/llm/kumru/send_documents` and
`/llm/kumru/send_pdf` return HTTP 500 with the human-readable
`PDF işleme hatası` detail, and no outbound inference call is issued. -/
theorem decode_failure_returns_500_no_calls (o : Nat → CallOutcome) (m : String) :
    send_docs_kumru o (.fail m) = (.httpError 500 ("PDF işleme hatası: " ++ m), [])
    ∧ send_pdf_kumru o (.fail m) = (.httpError 500 ("PDF işleme hatası: " ++ m), []) :=
  ⟨rfl, rfl⟩

/-- C9: `GET /kumru/health` always returns status 200 with body
`{"status": "Kumru router is healthy"}`, independent of any other state. -/
theorem health_check_always_ok (u : Unit) :
    kumru_health_check u = (200, "Kumru router is healthy") := rfl

/-- C10: extracted page text is stripped before the emptiness test, so a page
of pure whitespace behaves exactly like an empty page: `send_documents` skips
it (no call issued) and `send_pdf` uses the image-extraction prompt for it;
moreover `send_pdf` strips each per-page model response before appending it
under the page marker. -/
theorem whitespace_stripping
    (o : Nat → CallOutcome) (t : String) (pre post : List String) (r : String)
    (ht : pyStrip t = "") :
    send_docs_kumru o (.ok (pre ++ t :: post)) = send_docs_kumru o (.ok (pre ++ "" :: post))
    ∧ send_pdf_kumru o (.ok (pre ++ t :: post)) = send_pdf_kumru o (.ok (pre ++ "" :: post))
    ∧ (send_docs_kumru o (.ok [t])).2 = []
    ∧ (send_pdf_kumru o (.ok [t])).2 = [⟨MODEL_NAME, pdfPromptImage, false⟩]
    ∧ (send_pdf_kumru (fun _ => .success (some r)) (.ok ["A"])).1
        = .ok (sayfaMarker 1 ++ pyStrip r) := by
  refine ⟨?_, ?_, ?_, ?_, ?_⟩
  · simpa [send_docs_kumru] using sendDocsLoop_ws o t ht post pre 1 0 "" []
  · simp [send_pdf_kumru, sendPdfLoop_ws o t ht post pre 1 0 "" []]
  · simp [send_docs_kumru, sendDocsLoop, ht]
  · simp [send_pdf_kumru, sendPdfLoop, ht]
  · simp [send_pdf_kumru, sendPdfLoop, pdfPageText, String.empty_append,
      (by decide : (pyStrip "A" == "") = false), String.append_assoc]

theorem whitespace_stripping_witness :
    (send_docs_kumru (fun _ => CallOutcome.success (some "y")) (.ok [" \n "])).2 = [] :=
  (whitespace_stripping (fun _ => CallOutcome.success (some "y")) " \n " [] [] ""
    (by decide)).2.2.1

end Kumru
